import Mathlib

/-!
Shallow embedding of the client-side session/authentication core of the
vite-react-typescript template: the localStorage-backed durable store, the
`getFetch` HTTP helper, the `AuthProvider` session state machine
(`login`, `logout`, `updateUser`, `verifyToken`, `refreshAccessToken` and the
mount-time restore effect), and the `ProtectedRoute` access guard.

React `useState` updates are modelled as immediate field updates on an explicit
state record, threaded through each operation in the statement order of the source.
Operations invoked at a settled render read the same state they update, so this
threading is exact there.  The restore-on-start effect is the one place where the
closure and the queued state differ: it runs the first-render `verifyToken`, whose
`token`/`refreshToken` reads are still null, and `initSession` models that closure
explicitly (its refresh fallback is unreachable).  The two network calls are
modelled by passing the transport outcome of each call as an explicit argument;
every operation also reports the list of network calls it issued so that "no
network call" properties can be stated.
-/

namespace AuthCore

/-- The `User` record of `types.ts`: `id`, `email`, optional `name`.
The open-ended extra attributes are not exercised by the state machine and are
omitted. -/
structure User where
  id : String
  email : String
  name : Option String
deriving DecidableEq, Repr

/-- A value held in the durable store (localStorage).  Tokens are stored as
plain strings; the user record is stored via `JSON.stringify`, which we model
as the injective constructor `json`, with `JSON.parse` as its partial
inverse (`jsonParse`). -/
inductive StoreVal where
  | str (s : String)
  | json (u : User)
deriving DecidableEq, Repr

/-- JS truthiness of a stored value: the empty string is falsy; the JSON text
of a user object is never empty, hence truthy. -/
def StoreVal.truthy : StoreVal → Bool
  | .str s => !s.isEmpty
  | .json _ => true

/-- The string content of a stored value, as consumed by `setToken` /
`setRefreshToken` during restore.  For `.json u` the real code would see the
JSON text; no theorem in this file ever reads a `.json` value as a token, so a
fixed marker stands in for that text. -/
def StoreVal.asString : StoreVal → String
  | .str s => s
  | .json _ => "[json]"

/-- The result of `JSON.parse` applied to a stored value, typed at `User`: inverts
`JSON.stringify` (`.json`), and on a plain string we model the parse as
failing (the source wraps it in try/catch and ignores the failure). -/
def jsonParse : StoreVal → Option User
  | .str _ => none
  | .json u => some u

/-- The durable store: a key-value map of strings, localStoage-style. -/
def Store : Type := String → Option StoreVal

/-- Models `localStorage.getItem`. -/
def getItem (st : Store) (k : String) : Option StoreVal := st k

/-- Models `localStorage.setItem`. -/
def setItem (st : Store) (k : String) (v : StoreVal) : Store :=
  fun q => if q = k then some v else st q

/-- Models `localStorage.removeItem`. -/
def removeItem (st : Store) (k : String) : Store :=
  fun q => if q = k then none else st q

/-- The empty durable store. -/
def emptyStore : Store := fun _ => none

/-- JS truthiness of an optional string (`null`/`undefined` and `""` are
falsy). -/
def truthyS : Option String → Bool
  | none => false
  | some s => !s.isEmpty

/-- The key actually used by a `config.storage.xxxKey!` non-null assertion:
when the key is not configured, JavaScript coerces the `undefined` key to the
string "undefined". -/
def bangKey : Option String → String
  | some k => k
  | none => "undefined"

/-- The `endpoints` record of `AuthConfig` (`types.ts`). -/
structure Endpoints where
  verify : String
  refresh : Option String
deriving DecidableEq, Repr

/-- The `storage` record of `AuthConfig` (`types.ts`). -/
structure StorageKeys where
  tokenKey : String
  refreshTokenKey : Option String
  userKey : Option String
deriving DecidableEq, Repr

/-- The `AuthConfig` record (`types.ts`). -/
structure AuthConfig where
  endpoints : Endpoints
  storage : StorageKeys
  autoVerify : Bool
deriving DecidableEq, Repr

/-- The `defaultAuthConfig` value from `AuthContext.tsx`. -/
def defaultAuthConfig : AuthConfig :=
  { endpoints := { verify := "/auth/me", refresh := some "/auth/refresh" }
    storage := { tokenKey := "authToken", refreshTokenKey := some "refreshToken"
                 userKey := some "user" }
    autoVerify := true }

/-- Models `Partial<AuthConfig>`: each top-level property may be absent. -/
structure PartialAuthConfig where
  endpoints : Option Endpoints := none
  storage : Option StorageKeys := none
  autoVerify : Option Bool := none
deriving DecidableEq, Repr

/-- The spread `{ ...defaultAuthConfig, ...customConfig }` in `AuthProvider`:
a SHALLOW merge — each top-level property present on the custom configuration
replaces the default property wholesale. -/
def mergeConfig (custom : PartialAuthConfig) : AuthConfig :=
  { endpoints := custom.endpoints.getD defaultAuthConfig.endpoints
    storage := custom.storage.getD defaultAuthConfig.storage
    autoVerify := custom.autoVerify.getD defaultAuthConfig.autoVerify }

/-- The five `useState` pieces of `AuthProvider`. -/
structure AuthState where
  token : Option String
  refreshToken : Option String
  user : Option User
  loading : Bool
  isAuthenticated : Bool
deriving DecidableEq, Repr

/-- The state of the initial render: `useState(null)` ×3, `useState(true)` for
`loading`, `useState(false)` for `isAuthenticated`. -/
def initialAuthState : AuthState :=
  { token := none, refreshToken := none, user := none
    loading := true, isAuthenticated := false }

/-- In-memory state together with the durable store it mirrors into. -/
@[ext]
structure World where
  state : AuthState
  store : Store

/-- One network call issued through `getFetch route (withAuth tok)`: the
route and the bearer token carried in the Authorization header. -/
structure NetCall where
  route : String
  bearer : String
deriving DecidableEq, Repr

/-- The outcome of the underlying `fetch` for a single call, as observed by
`getFetch`:
* `netError` — `fetch` rejected (network unreachable, timeout, ...);
* `nonJson` — a response whose Content-Type is not `application/json`;
* `parseError` — JSON Content-Type but `response.json()` threw (caught by
  the catch inside `getFetch`);
* `jsonOk st body msg` — a parsed JSON response with HTTP status `st`,
  payload `body` (`none` models a JSON `null` body) and optional `message`
  field used for error extraction. -/
inductive Transport (α : Type) where
  | netError (msg : String)
  | nonJson (status : Nat)
  | parseError (msg : String)
  | jsonOk (status : Nat) (body : Option α) (message : Option String)

/-- The `ApiResponse<T>` record from `types.ts`. -/
structure ApiResponse (α : Type) where
  status : Nat
  data : Option α
  error : Option String
  success : Bool

/-- Models `getFetch` from `fetch.ts`, as a function of the transport outcome.  Both
the network-error catch and the `response.json()` throw return a status-500
failure; a non-JSON body is a failure with a fixed message; a JSON response is
a success exactly when the status is 2xx, in which case `data` is the payload,
otherwise `error` is the `message` field of the body or a generic `HTTP <status>`
text. -/
def getFetch {α : Type} : Transport α → ApiResponse α
  | .netError msg => { status := 500, data := none, error := some msg, success := false }
  | .nonJson st =>
      { status := st, data := none
        error := some "Received non-JSON response from server", success := false }
  | .parseError msg => { status := 500, data := none, error := some msg, success := false }
  | .jsonOk st body msg =>
      let ok : Bool := decide (200 ≤ st ∧ st < 300)
      { status := st
        data := if ok then body else none
        error := if ok then none else
          some (match msg with
                | some m => if m.isEmpty then "HTTP " ++ toString st else m
                | none => "HTTP " ++ toString st)
        success := ok }

/-- Payload of the response of the refresh endpoint:
`{ token: string; refreshToken?: string; user?: User }`. -/
structure RefreshData where
  token : String
  refreshToken : Option String
  user : Option User
deriving DecidableEq, Repr

/-- Result of `verifyToken` / `refreshAccessToken`: the final world, the
returned boolean, and the network calls issued. -/
structure OpResult where
  w : World
  ok : Bool
  calls : List NetCall

/-- Models `login(newToken, newRefreshToken?, newUser?)` from `AuthContext.tsx`:
sets the token and `isAuthenticated`, persists the token under `tokenKey`,
and — only when supplied and truthy — the refresh token and the user under
their keys (the source uses a `!` assertion on those key names). -/
def login (cfg : AuthConfig) (w : World) (newToken : String)
    (newRefreshToken : Option String) (newUser : Option User) : World :=
  let st := { w.state with token := some newToken, isAuthenticated := true }
  let store := setItem w.store cfg.storage.tokenKey (.str newToken)
  let p1 : AuthState × Store :=
    match newRefreshToken with
    | some r =>
        if r.isEmpty then (st, store)
        else ({ st with refreshToken := some r },
              setItem store (bangKey cfg.storage.refreshTokenKey) (.str r))
    | none => (st, store)
  let p2 : AuthState × Store :=
    match newUser with
    | some u => ({ p1.1 with user := some u },
                 setItem p1.2 (bangKey cfg.storage.userKey) (.json u))
    | none => p1
  ⟨p2.1, p2.2⟩

/-- Models `logout()` from `AuthContext.tsx`: clears the three data fields and
`isAuthenticated` (leaving `loading` untouched), removes `tokenKey`, and
removes the refresh-token and user keys only when configured truthy. -/
def logout (cfg : AuthConfig) (w : World) : World :=
  let st := { w.state with token := none, refreshToken := none, user := none
                           isAuthenticated := false }
  let s1 := removeItem w.store cfg.storage.tokenKey
  let s2 :=
    match cfg.storage.refreshTokenKey with
    | some k => if k.isEmpty then s1 else removeItem s1 k
    | none => s1
  let s3 :=
    match cfg.storage.userKey with
    | some k => if k.isEmpty then s2 else removeItem s2 k
    | none => s2
  ⟨st, s3⟩

/-- Models `updateUser(updatedUser)` from `AuthContext.tsx`. -/
def updateUser (cfg : AuthConfig) (w : World) (u : User) : World :=
  let st := { w.state with user := some u }
  let store :=
    match cfg.storage.userKey with
    | some k => if k.isEmpty then w.store else setItem w.store k (.json u)
    | none => w.store
  ⟨st, store⟩

/-- Models `refreshAccessToken()` from `AuthContext.tsx`.  Returns `false` with no
call when the refresh token or refresh endpoint is falsy; otherwise issues a
`getFetch` on the refresh endpoint with the refresh token as bearer.  On a
successful response with data it adopts the new token (persisting it), the new
refresh token and user when present and truthy, and sets `isAuthenticated`;
on any failure it performs `logout()` and returns `false`. -/
def refreshAccessToken (cfg : AuthConfig) (trR : Transport RefreshData)
    (w : World) : OpResult :=
  match w.state.refreshToken, cfg.endpoints.refresh with
  | some rt, some route =>
      if rt.isEmpty ∨ route.isEmpty then ⟨w, false, []⟩
      else
        let call : NetCall := ⟨route, rt⟩
        let resp := getFetch trR
        match resp.success, resp.data with
        | true, some d =>
            let st := { w.state with token := some d.token }
            let store := setItem w.store cfg.storage.tokenKey (.str d.token)
            let p1 : AuthState × Store :=
              match d.refreshToken with
              | some nrt =>
                  if nrt.isEmpty then (st, store)
                  else ({ st with refreshToken := some nrt },
                        setItem store (bangKey cfg.storage.refreshTokenKey) (.str nrt))
              | none => (st, store)
            let p2 : AuthState × Store :=
              match d.user with
              | some nu => ({ p1.1 with user := some nu },
                            setItem p1.2 (bangKey cfg.storage.userKey) (.json nu))
              | none => p1
            ⟨⟨{ p2.1 with isAuthenticated := true }, p2.2⟩, true, [call]⟩
        | _, _ => ⟨logout cfg w, false, [call]⟩
  | _, _ => ⟨w, false, []⟩

/-- Models `verifyToken(tokenToVerify?)` from `AuthContext.tsx`.  `currentToken` is
`tokenToVerify || token`; when falsy the call returns `false` after only
`setLoading(false)`.  Otherwise it issues a `getFetch` on the verify endpoint.
On success with data it sets `isAuthenticated`, stores the returned user (in
memory and, when a user key is configured, in the durable store), clears
`loading`, and returns `true` — note it does NOT write the verified token into
the `token` state.  On failure it attempts `refreshAccessToken()` when a
refresh token and refresh endpoint are configured and returns `true` if that
recovers (without touching `loading`); otherwise it clears `isAuthenticated`
and `loading`, performs `logout()`, and returns `false`.  (`getFetch` never
throws, so the surrounding catch of the source is unreachable in this model.) -/
def verifyToken (cfg : AuthConfig) (trV : Transport User)
    (trR : Transport RefreshData) (w : World) (tokenToVerify : Option String) :
    OpResult :=
  let currentToken : Option String :=
    if truthyS tokenToVerify then tokenToVerify else w.state.token
  match currentToken with
  | none => ⟨⟨{ w.state with loading := false }, w.store⟩, false, []⟩
  | some ct =>
      if ct.isEmpty then ⟨⟨{ w.state with loading := false }, w.store⟩, false, []⟩
      else
        let call : NetCall := ⟨cfg.endpoints.verify, ct⟩
        let resp := getFetch trV
        match resp.success, resp.data with
        | true, some u =>
            let st := { w.state with isAuthenticated := true, user := some u
                                     loading := false }
            let store :=
              match cfg.storage.userKey with
              | some k => if k.isEmpty then w.store else setItem w.store k (.json u)
              | none => w.store
            ⟨⟨st, store⟩, true, [call]⟩
        | _, _ =>
            if truthyS w.state.refreshToken ∧ truthyS cfg.endpoints.refresh then
              let r := refreshAccessToken cfg trR w
              if r.ok then ⟨r.w, true, call :: r.calls⟩
              else
                let w2 := logout cfg
                  ⟨{ r.w.state with isAuthenticated := false, loading := false }, r.w.store⟩
                ⟨w2, false, call :: r.calls⟩
            else
              let w2 := logout cfg
                ⟨{ w.state with isAuthenticated := false, loading := false }, w.store⟩
              ⟨w2, false, [call]⟩

/-- The mount-time restore effect of `AuthProvider` (its `useEffect` with an
empty dependency array): reads the three keys from the durable store (the
optional key names defaulting to `""` via `|| ""`), restores whatever is
truthy into the queued state (a stored user that fails to parse is ignored),
then either runs `verifyToken(savedToken)` when `autoVerify` is set, or marks
the session authenticated and done loading; with no saved token it only
clears `loading`.

The effect runs in the FIRST render, so the `verifyToken` it invokes is the
first-render closure: its `token` and `refreshToken` reads still see `null` —
the `setRefreshToken` the effect just issued only reaches later renders.  The
explicit argument is the truthy saved token, so `currentToken` is that token,
but the fallback condition `refreshToken && config.endpoints.refresh` is
always false during restore: a rejected verify goes straight to
`setIsAuthenticated(false); setLoading(false); logout()`, and the refresh
endpoint is never called (the refresh transport argument is unused and kept
only for a uniform signature).  The state updates of the verify call land on
top of the queued restored state. -/
def initSession (cfg : AuthConfig) (trV : Transport User)
    (trR : Transport RefreshData) (store : Store) : World × List NetCall :=
  let savedToken := getItem store cfg.storage.tokenKey
  let savedRefreshToken := getItem store (cfg.storage.refreshTokenKey.getD "")
  let savedUser := getItem store (cfg.storage.userKey.getD "")
  match savedToken with
  | some tv =>
      if tv.truthy then
        let st0 := { initialAuthState with token := some tv.asString }
        let st1 :=
          match savedRefreshToken with
          | some rv => if rv.truthy then { st0 with refreshToken := some rv.asString } else st0
          | none => st0
        let st2 :=
          match savedUser with
          | some uv =>
              if uv.truthy then
                match jsonParse uv with
                | some u => { st1 with user := some u }
                | none => st1
              else st1
          | none => st1
        if cfg.autoVerify then
          let call : NetCall := ⟨cfg.endpoints.verify, tv.asString⟩
          let resp := getFetch trV
          match resp.success, resp.data with
          | true, some u =>
              let st := { st2 with isAuthenticated := true, user := some u
                                   loading := false }
              let store2 :=
                match cfg.storage.userKey with
                | some k => if k.isEmpty then store else setItem store k (.json u)
                | none => store
              (⟨st, store2⟩, [call])
          | _, _ =>
              (logout cfg ⟨{ st2 with isAuthenticated := false, loading := false },
                store⟩, [call])
        else
          (⟨{ st2 with isAuthenticated := true, loading := false }, store⟩, [])
      else (⟨{ initialAuthState with loading := false }, store⟩, [])
  | none => (⟨{ initialAuthState with loading := false }, store⟩, [])

/-- What `ProtectedRoute` renders. -/
inductive GuardRender where
  | pending
  | redirect (dest : String) (replace : Bool)
  | outlet
deriving DecidableEq, Repr

/-- The rendering decision of `protectedRoute.tsx` as a function of the
snapshot: spinner while `loading || isChecking`; then `Navigate to="/"
replace` when `!token || !isAuthenticated`; else the protected `Outlet`. -/
def ProtectedRoute (loading isChecking : Bool) (token : Option String)
    (isAuthenticated : Bool) : GuardRender :=
  if loading || isChecking then .pending
  else if !(truthyS token) || !isAuthenticated then .redirect "/" true
  else .outlet

/-! ### Store helper lemmas -/

theorem setItem_self (st : Store) (k : String) (v : StoreVal) :
    setItem st k v k = some v := by
  simp [setItem]

theorem setItem_ne (st : Store) (k : String) (v : StoreVal) (q : String)
    (h : q ≠ k) : setItem st k v q = st q := by
  simp [setItem, h]

theorem removeItem_self (st : Store) (k : String) : removeItem st k k = none := by
  simp [removeItem]

theorem removeItem_ne (st : Store) (k : String) (q : String) (h : q ≠ k) :
    removeItem st k q = st q := by
  simp [removeItem, h]

/-- Pointwise description of the store after `logout`: the token key is
removed, the refresh-token and user keys are removed when configured with a
non-empty name, every other key is untouched. -/
theorem logout_store (cfg : AuthConfig) (w : World) (q : String) :
    (logout cfg w).store q =
      if q = cfg.storage.tokenKey then none
      else if cfg.storage.refreshTokenKey = some q ∧ q.isEmpty = false then none
      else if cfg.storage.userKey = some q ∧ q.isEmpty = false then none
      else w.store q := by
  rcases cfg with ⟨ep, ⟨tk, rk, uk⟩, av⟩
  rcases rk with _ | k1 <;> rcases uk with _ | k2 <;>
    simp only [logout, removeItem] <;>
    split_ifs <;> simp_all [removeItem] <;> aesop

/-- The in-memory state after `logout`: data cleared, `loading` untouched. -/
theorem logout_state (cfg : AuthConfig) (w : World) :
    (logout cfg w).state =
      { token := none, refreshToken := none, user := none
        loading := w.state.loading, isAuthenticated := false } := rfl

/-! ### Claim C8 — logout -/

/-- C8: from every prior state, `logout()` yields `authenticated == false` and
`credential == null` (clearing the renewal credential and principal too),
removes the configured token key and — when configured with a non-empty
name — the refresh-token and user keys from the durable store, touches no
other key, and is idempotent. -/
theorem C8_logout_clears_and_idempotent (cfg : AuthConfig) (w : World) :
    (logout cfg w).state.isAuthenticated = false ∧
    (logout cfg w).state.token = none ∧
    (logout cfg w).state.refreshToken = none ∧
    (logout cfg w).state.user = none ∧
    (logout cfg w).store cfg.storage.tokenKey = none ∧
    (∀ k, cfg.storage.refreshTokenKey = some k → k.isEmpty = false →
      (logout cfg w).store k = none) ∧
    (∀ k, cfg.storage.userKey = some k → k.isEmpty = false →
      (logout cfg w).store k = none) ∧
    (∀ q, q ≠ cfg.storage.tokenKey →
      (cfg.storage.refreshTokenKey = some q → q.isEmpty = true) →
      (cfg.storage.userKey = some q → q.isEmpty = true) →
      (logout cfg w).store q = w.store q) ∧
    logout cfg (logout cfg w) = logout cfg w := by
  refine ⟨rfl, rfl, rfl, rfl, ?_, ?_, ?_, ?_, ?_⟩
  · rw [logout_store]; simp
  · intro k hk hne
    rw [logout_store]
    split_ifs <;> simp_all
  · intro k hk hne
    rw [logout_store]
    split_ifs <;> simp_all
  · intro q hq hrk huk
    rw [logout_store]
    split_ifs with h1 h2 h3 <;> first
      | rfl
      | (exact absurd h1 hq)
      | (simp_all)
  · ext
    · rfl
    · funext q
      rw [logout_store, logout_store]
      split_ifs <;> rfl

/-- Closed instance of C8 at a concrete configuration and world. -/
theorem C8_logout_witness :
    (logout defaultAuthConfig ⟨initialAuthState, emptyStore⟩).store "refreshToken" = none :=
  (C8_logout_clears_and_idempotent defaultAuthConfig
    ⟨initialAuthState, emptyStore⟩).2.2.2.2.2.1 "refreshToken" rfl rfl

/-! ### Claim C9 — configuration merge -/

/-- C9 counterexample: a custom configuration supplying only part of the
`storage` record wipes the nested defaults — `storage.refreshTokenKey` does
NOT take its documented default `"refreshToken"`, because the spread in
`AuthProvider` merges only top-level properties. -/
theorem C9_shallow_merge_counterexample :
    (mergeConfig
      { storage := some { tokenKey := "tok", refreshTokenKey := none, userKey := none } }
     ).storage.refreshTokenKey = none ∧
    defaultAuthConfig.storage.refreshTokenKey = some "refreshToken" ∧
    (mergeConfig
      { endpoints := some { verify := "/api/me", refresh := none } }
     ).endpoints.refresh = none ∧
    defaultAuthConfig.endpoints.refresh = some "/auth/refresh" := by
  refine ⟨rfl, rfl, rfl, rfl⟩

/-- C9 (amended): the effective configuration is the custom options merged
over the documented defaults at the TOP level only: a top-level option left
out by the custom configuration takes its default value, while a supplied
`storage` or `endpoints` record replaces the default record wholesale, so
nested options omitted inside a supplied record stay absent rather than
falling back to their defaults. -/
theorem C9_merge_is_shallow (pc : PartialAuthConfig) :
    (mergeConfig pc).autoVerify = pc.autoVerify.getD true ∧
    (mergeConfig pc).endpoints =
      pc.endpoints.getD { verify := "/auth/me", refresh := some "/auth/refresh" } ∧
    (mergeConfig pc).storage =
      pc.storage.getD
        { tokenKey := "authToken", refreshTokenKey := some "refreshToken"
          userKey := some "user" } ∧
    (∀ st, pc.storage = some st → (mergeConfig pc).storage = st) ∧
    (∀ ep, pc.endpoints = some ep → (mergeConfig pc).endpoints = ep) := by
  refine ⟨rfl, rfl, rfl, ?_, ?_⟩ <;> intro x hx <;> simp [mergeConfig, hx]

/-- Closed instance of the amended C9 statement at a concrete partial
configuration. -/
theorem C9_merge_is_shallow_witness :
    (mergeConfig { autoVerify := some false }).storage =
      { tokenKey := "authToken", refreshTokenKey := some "refreshToken"
        userKey := some "user" } :=
  (C9_merge_is_shallow { autoVerify := some false }).2.2.1

/-! ### Claim C10 — access guard -/

/-- C10 counterexample: with both flags down, a present-but-empty credential
and `authenticated == true`, the guard redirects (because `!token` is true
for the empty string) even though the credential is not absent — so the
redirect does not happen "exactly when the credential is absent or
authenticated is false". -/
theorem C10_empty_credential_counterexample :
    ProtectedRoute false false (some "") true = GuardRender.redirect "/" true ∧
    some "" ≠ (none : Option String) ∧
    ProtectedRoute false false (some "") true ≠ GuardRender.outlet := by
  refine ⟨rfl, by simp, by decide⟩

/-- C10 (amended): the rendering decision of the guard is a function of the snapshot:
while `loading` or its own `checking` flag is up it renders only the pending
indicator; once both are down it signals a history-replacing redirect to the
public entry point exactly when the credential is absent or EMPTY or
`authenticated` is false, and otherwise renders the protected subtree. -/
theorem C10_guard_decision (l c : Bool) (tok : Option String) (auth : Bool) :
    ((l = true ∨ c = true) → ProtectedRoute l c tok auth = GuardRender.pending) ∧
    (l = false → c = false →
      ((ProtectedRoute l c tok auth = GuardRender.redirect "/" true) ↔
        (truthyS tok = false ∨ auth = false)) ∧
      ((ProtectedRoute l c tok auth = GuardRender.outlet) ↔
        (truthyS tok = true ∧ auth = true))) := by
  cases l <;> cases c <;> cases auth <;>
    cases htok : truthyS tok <;>
      simp [ProtectedRoute, htok]

/-- Closed instance of the amended C10 statement. -/
theorem C10_guard_decision_witness :
    ProtectedRoute true false (some "x") true = GuardRender.pending ∧
    ProtectedRoute false false none true = GuardRender.redirect "/" true :=
  ⟨(C10_guard_decision true false (some "x") true).1 (Or.inl rfl),
   ((C10_guard_decision false false none true).2 rfl rfl).1.mpr (Or.inl rfl)⟩

/-! ### Claim C7 — login -/

/-- C7: for all valid `(credential, renewalCredential?, principal?)`, after
`login(...)` the state is authenticated with that credential, the durable
store holds the credential under the configured token key, and the renewal
credential and principal are written under their configured keys exactly when
supplied (and, for the renewal credential, non-empty, since the source guards
it with JS truthiness); when not supplied those keys are untouched. -/
theorem C7_login_persists (cfg : AuthConfig) (w : World) (t : String)
    (r? : Option String) (u? : Option User) (rk uk : String)
    (hrk : cfg.storage.refreshTokenKey = some rk)
    (huk : cfg.storage.userKey = some uk)
    (hrt : rk ≠ cfg.storage.tokenKey) (hut : uk ≠ cfg.storage.tokenKey)
    (hur : uk ≠ rk) :
    (login cfg w t r? u?).state.isAuthenticated = true ∧
    (login cfg w t r? u?).state.token = some t ∧
    (login cfg w t r? u?).store cfg.storage.tokenKey = some (.str t) ∧
    (∀ r, r? = some r → r.isEmpty = false →
      (login cfg w t r? u?).store rk = some (.str r)) ∧
    (∀ r, r? = some r → r.isEmpty = true →
      (login cfg w t r? u?).store rk = w.store rk) ∧
    (r? = none → (login cfg w t r? u?).store rk = w.store rk) ∧
    (∀ u, u? = some u → (login cfg w t r? u?).store uk = some (.json u)) ∧
    (u? = none → (login cfg w t r? u?).store uk = w.store uk) := by
  refine ⟨?_, ?_, ?_, ?_, ?_, ?_, ?_, ?_⟩
  · rcases r? with _ | r <;> rcases u? with _ | u <;>
      simp only [login] <;> (try split) <;> rfl
  · rcases r? with _ | r <;> rcases u? with _ | u <;>
      simp only [login] <;> (try split) <;> rfl
  · rcases r? with _ | r <;> rcases u? with _ | u <;>
      simp only [login, bangKey, hrk, huk] <;> (try split) <;>
      simp [setItem, Ne.symm hrt, Ne.symm hut]
  · intro r hr hne
    subst hr
    rcases u? with _ | u <;>
      simp only [login, bangKey, hrk, huk, hne] <;>
      simp [setItem, hne, Ne.symm hur]
  · intro r hr hemp
    subst hr
    rcases u? with _ | u <;>
      simp only [login, bangKey, hrk, huk, hemp] <;>
      simp [setItem, hrt, Ne.symm hur]
  · intro hr
    subst hr
    rcases u? with _ | u <;>
      simp only [login, bangKey, hrk, huk] <;>
      simp [setItem, hrt, Ne.symm hur]
  · intro u hu
    subst hu
    rcases r? with _ | r <;>
      simp only [login, bangKey, hrk, huk] <;> (try split) <;>
      simp [setItem]
  · intro hu
    subst hu
    rcases r? with _ | r <;>
      simp only [login, bangKey, hrk, huk] <;> (try split) <;>
      simp [setItem, hut, hur]

/-- Closed instance of C7 at a concrete configuration and arguments. -/
theorem C7_login_witness :
    (login defaultAuthConfig ⟨initialAuthState, emptyStore⟩ "tok1" (some "r1")
      none).store "authToken" = some (.str "tok1") :=
  (C7_login_persists defaultAuthConfig ⟨initialAuthState, emptyStore⟩ "tok1"
    (some "r1") none "refreshToken" "user" rfl rfl (by decide) (by decide)
    (by decide)).2.2.1

/-! ### Claims C4 and C5 — verify failure paths -/

/-- C4: from a state holding a credential, when the verify endpoint rejects
(`success == false` or a null payload) and no refresh path is available
(falsy renewal credential or falsy refresh endpoint), `verifyToken` returns
failure and the state is fully logged out: `authenticated == false`,
`credential == null`, renewal credential and principal cleared, `loading`
cleared, and the configured token key removed from the durable store. -/
theorem C4_reject_without_refresh_logs_out (cfg : AuthConfig) (w : World)
    (ct : String) (hct : w.state.token = some ct) (hne : ct.isEmpty = false)
    (hnoR : truthyS w.state.refreshToken = false ∨
            truthyS cfg.endpoints.refresh = false)
    (trV : Transport User) (trR : Transport RefreshData)
    (hrej : (getFetch trV).success = false ∨ (getFetch trV).data = none) :
    (verifyToken cfg trV trR w none).ok = false ∧
    (verifyToken cfg trV trR w none).w.state.isAuthenticated = false ∧
    (verifyToken cfg trV trR w none).w.state.token = none ∧
    (verifyToken cfg trV trR w none).w.state.refreshToken = none ∧
    (verifyToken cfg trV trR w none).w.state.user = none ∧
    (verifyToken cfg trV trR w none).w.state.loading = false ∧
    (verifyToken cfg trV trR w none).w.store cfg.storage.tokenKey = none := by
  have hcond : ¬(truthyS w.state.refreshToken = true ∧
      truthyS cfg.endpoints.refresh = true) := by
    rcases hnoR with h | h <;> simp [h]
  cases hs : (getFetch trV).success <;> cases hd : (getFetch trV).data <;>
    simp only [hs, hd, Option.some_ne_none, or_false, false_or,
      Bool.true_eq_false, Bool.false_eq_true] at hrej
  all_goals
    have tn : truthyS none = false := rfl
    have hmain : verifyToken cfg trV trR w none =
        ⟨logout cfg ⟨{ w.state with isAuthenticated := false, loading := false },
            w.store⟩, false, [⟨cfg.endpoints.verify, ct⟩]⟩ := by
      simp only [verifyToken, tn, Bool.false_eq_true, if_false, hct, hne, hs, hd]
      rw [if_neg hcond]
    rw [hmain]
    refine ⟨rfl, rfl, rfl, rfl, rfl, rfl, ?_⟩
    rw [logout_store]
    simp

/-- When the guard `!refreshToken || !config.endpoints.refresh` fires,
`refreshAccessToken` is a no-op returning failure with no network call. -/
theorem refreshAccessToken_skip (cfg : AuthConfig) (trR : Transport RefreshData)
    (w : World)
    (h : truthyS w.state.refreshToken = false ∨ truthyS cfg.endpoints.refresh = false) :
    refreshAccessToken cfg trR w = ⟨w, false, []⟩ := by
  rcases hrt : w.state.refreshToken with _ | rt <;>
    rcases hrr : cfg.endpoints.refresh with _ | route <;>
      simp only [refreshAccessToken, hrt, hrr] <;>
      try rfl
  have hcond : rt.isEmpty = true ∨ route.isEmpty = true := by
    rcases h with h | h <;> simp_all [truthyS]
  rw [if_pos hcond]

/-- A successful refresh adopts the returned credential set: the new token is
stored in memory and under the token key, `isAuthenticated` is set, the call
returns `true`, and exactly one network call (the refresh endpoint with the
renewal credential as bearer) is issued. -/
theorem refreshAccessToken_success (cfg : AuthConfig) (trR : Transport RefreshData)
    (w : World) (rt route : String) (d : RefreshData)
    (hrt : w.state.refreshToken = some rt) (hrtne : rt.isEmpty = false)
    (hroute : cfg.endpoints.refresh = some route) (hroutene : route.isEmpty = false)
    (hok : (getFetch trR).success = true) (hdata : (getFetch trR).data = some d) :
    (refreshAccessToken cfg trR w).ok = true ∧
    (refreshAccessToken cfg trR w).w.state.isAuthenticated = true ∧
    (refreshAccessToken cfg trR w).w.state.token = some d.token ∧
    (refreshAccessToken cfg trR w).calls = [⟨route, rt⟩] := by
  simp only [refreshAccessToken, hrt, hroute, hrtne, hroutene, hok, hdata]
  rcases hdr : d.refreshToken with _ | nrt <;> rcases hdu : d.user with _ | nu <;>
    simp_all [setItem] <;> (try (split_ifs <;> simp))

/-- A failed refresh (non-success response or null payload) performs the
full `logout()` and returns `false`, after issuing the one refresh call. -/
theorem refreshAccessToken_failure (cfg : AuthConfig) (trR : Transport RefreshData)
    (w : World) (rt route : String)
    (hrt : w.state.refreshToken = some rt) (hrtne : rt.isEmpty = false)
    (hroute : cfg.endpoints.refresh = some route) (hroutene : route.isEmpty = false)
    (hfail : (getFetch trR).success = false ∨ (getFetch trR).data = none) :
    refreshAccessToken cfg trR w = ⟨logout cfg w, false, [⟨route, rt⟩]⟩ := by
  cases hs : (getFetch trR).success <;> cases hd : (getFetch trR).data <;>
    simp only [hs, hd, Option.some_ne_none, or_false, false_or,
      Bool.true_eq_false, Bool.false_eq_true] at hfail <;>
    simp only [refreshAccessToken, hrt, hroute, hrtne, hroutene, hs, hd] <;>
    simp

/-- On a rejected (or error) verification with the refresh fallback
configured, `verifyToken` reduces to the refresh attempt: its world when the
refresh recovers, the logged-out world otherwise, with the verify call
prepended to the calls of the refresh. -/
theorem verifyToken_reject_with_refresh (cfg : AuthConfig) (trV : Transport User)
    (trR : Transport RefreshData) (w : World) (ct : String)
    (hct : w.state.token = some ct) (hne : ct.isEmpty = false)
    (hcondT : truthyS w.state.refreshToken = true ∧
      truthyS cfg.endpoints.refresh = true)
    (hs : (getFetch trV).success = false ∨ (getFetch trV).data = none) :
    verifyToken cfg trV trR w none =
      if (refreshAccessToken cfg trR w).ok then
        ⟨(refreshAccessToken cfg trR w).w, true,
          ⟨cfg.endpoints.verify, ct⟩ :: (refreshAccessToken cfg trR w).calls⟩
      else
        ⟨logout cfg ⟨{ (refreshAccessToken cfg trR w).w.state with
            isAuthenticated := false, loading := false },
            (refreshAccessToken cfg trR w).w.store⟩, false,
          ⟨cfg.endpoints.verify, ct⟩ :: (refreshAccessToken cfg trR w).calls⟩ := by
  have tn : truthyS none = false := rfl
  cases hsu : (getFetch trV).success <;> cases hd : (getFetch trV).data <;>
    simp only [hsu, hd, Option.some_ne_none, or_false, false_or,
      Bool.true_eq_false, Bool.false_eq_true] at hs <;>
    simp only [verifyToken, tn, Bool.false_eq_true, if_false, hct, hne, hsu, hd] <;>
    rw [if_pos hcondT]

/-- C5: from a state holding a credential and a truthy renewal credential
with a refresh endpoint configured, when the verify endpoint rejects but the
refresh endpoint returns a new credential set, `verifyToken` returns success
and the final state is authenticated with the credential returned by refresh,
not the original one. -/
theorem C5_refresh_recovers (cfg : AuthConfig) (w : World) (ct rt route : String)
    (d : RefreshData)
    (hct : w.state.token = some ct) (hne : ct.isEmpty = false)
    (hrt : w.state.refreshToken = some rt) (hrtne : rt.isEmpty = false)
    (hroute : cfg.endpoints.refresh = some route) (hroutene : route.isEmpty = false)
    (trV : Transport User) (trR : Transport RefreshData)
    (hrej : (getFetch trV).success = false ∨ (getFetch trV).data = none)
    (hok : (getFetch trR).success = true) (hdata : (getFetch trR).data = some d) :
    (verifyToken cfg trV trR w none).ok = true ∧
    (verifyToken cfg trV trR w none).w.state.isAuthenticated = true ∧
    (verifyToken cfg trV trR w none).w.state.token = some d.token ∧
    (d.token ≠ ct → (verifyToken cfg trV trR w none).w.state.token ≠ some ct) := by
  have hcondT : truthyS w.state.refreshToken = true ∧
      truthyS cfg.endpoints.refresh = true := by
    rw [hrt, hroute]; simp [truthyS, hrtne, hroutene]
  obtain ⟨hr1, hr2, hr3, _⟩ :=
    refreshAccessToken_success cfg trR w rt route d hrt hrtne hroute hroutene hok hdata
  rw [verifyToken_reject_with_refresh cfg trV trR w ct hct hne hcondT hrej,
    if_pos hr1]
  refine ⟨rfl, hr2, hr3, ?_⟩
  intro hdt
  rw [hr3]
  simp [hdt]

/-- Closed instance of C4: verify rejects with HTTP 401, no refresh endpoint
configured; the token key is removed from the store. -/
theorem C4_reject_witness :
    (verifyToken
      { endpoints := { verify := "/auth/me", refresh := none }
        storage := { tokenKey := "tok", refreshTokenKey := none, userKey := none }
        autoVerify := true }
      (.jsonOk 401 none none) (.netError "down")
      ⟨{ token := some "abc", refreshToken := none, user := none
         loading := false, isAuthenticated := true },
       setItem emptyStore "tok" (.str "abc")⟩ none).w.store "tok" = none :=
  (C4_reject_without_refresh_logs_out
    { endpoints := { verify := "/auth/me", refresh := none }
      storage := { tokenKey := "tok", refreshTokenKey := none, userKey := none }
      autoVerify := true }
    ⟨{ token := some "abc", refreshToken := none, user := none
       loading := false, isAuthenticated := true },
     setItem emptyStore "tok" (.str "abc")⟩
    "abc" rfl rfl (Or.inr rfl) (.jsonOk 401 none none) (.netError "down")
    (Or.inl (by decide))).2.2.2.2.2.2

/-- Closed instance of C5: verify rejects with HTTP 401, refresh returns a new
token `"t2"`; the final credential is the refreshed one. -/
theorem C5_refresh_witness :
    (verifyToken defaultAuthConfig (.jsonOk 401 none none)
      (.jsonOk 200 (some { token := "t2", refreshToken := none, user := none }) none)
      ⟨{ token := some "abc", refreshToken := some "r1", user := none
         loading := false, isAuthenticated := true }, emptyStore⟩
      none).w.state.token = some "t2" :=
  (C5_refresh_recovers defaultAuthConfig
    ⟨{ token := some "abc", refreshToken := some "r1", user := none
       loading := false, isAuthenticated := true }, emptyStore⟩
    "abc" "r1" "/auth/refresh" { token := "t2", refreshToken := none, user := none }
    rfl rfl rfl rfl rfl rfl (.jsonOk 401 none none)
    (.jsonOk 200 (some { token := "t2", refreshToken := none, user := none }) none)
    (Or.inl (by decide)) (by decide) (by decide)).2.2.1

/-! ### Claim C6 — transport/parse errors fold into the rejection path -/

/-- Any two verify outcomes that `getFetch` reports as failures (or with a
null payload) make `verifyToken` produce identical results: the failure
branch never inspects the response again. -/
theorem verifyToken_failure_congr (cfg : AuthConfig) (trV trV2 : Transport User)
    (trR : Transport RefreshData) (w : World) (arg : Option String)
    (h : (getFetch trV).success = false ∨ (getFetch trV).data = none)
    (h2 : (getFetch trV2).success = false ∨ (getFetch trV2).data = none) :
    verifyToken cfg trV trR w arg = verifyToken cfg trV2 trR w arg := by
  cases hs : (getFetch trV).success <;> cases hd : (getFetch trV).data <;>
    simp only [hs, hd, Option.some_ne_none, or_false, false_or,
      Bool.true_eq_false, Bool.false_eq_true] at h <;>
  cases hs2 : (getFetch trV2).success <;> cases hd2 : (getFetch trV2).data <;>
    simp only [hs2, hd2, Option.some_ne_none, or_false, false_or,
      Bool.true_eq_false, Bool.false_eq_true] at h2 <;>
  simp only [verifyToken, hs, hd, hs2, hd2]

/-- C6: with a credential, a truthy renewal credential and a refresh endpoint
configured, a transport error, a parse error or a non-JSON response during
the verify call behaves exactly like a rejected verification (here HTTP
`status` outside 2xx): the refresh fallback is attempted first (the call
trace shows verify then refresh), and the full logout happens only if that
fallback also fails. -/
theorem C6_transport_error_like_rejection (cfg : AuthConfig) (w : World)
    (ct rt route : String) (m p : String) (stN status : Nat)
    (body : Option User) (msg : Option String)
    (trR : Transport RefreshData)
    (hct : w.state.token = some ct) (hne : ct.isEmpty = false)
    (hrt : w.state.refreshToken = some rt) (hrtne : rt.isEmpty = false)
    (hroute : cfg.endpoints.refresh = some route) (hroutene : route.isEmpty = false)
    (hstatus : ¬(200 ≤ status ∧ status < 300)) :
    verifyToken cfg (.netError m) trR w none =
      verifyToken cfg (.jsonOk status body msg) trR w none ∧
    verifyToken cfg (.parseError p) trR w none =
      verifyToken cfg (.jsonOk status body msg) trR w none ∧
    verifyToken cfg (.nonJson stN) trR w none =
      verifyToken cfg (.jsonOk status body msg) trR w none ∧
    (verifyToken cfg (.netError m) trR w none).calls =
      [⟨cfg.endpoints.verify, ct⟩, ⟨route, rt⟩] ∧
    (∀ d, (getFetch trR).success = true → (getFetch trR).data = some d →
      (verifyToken cfg (.netError m) trR w none).ok = true ∧
      (verifyToken cfg (.netError m) trR w none).w.state.isAuthenticated = true ∧
      (verifyToken cfg (.netError m) trR w none).w.state.token = some d.token) ∧
    ((getFetch trR).success = false ∨ (getFetch trR).data = none →
      (verifyToken cfg (.netError m) trR w none).ok = false ∧
      (verifyToken cfg (.netError m) trR w none).w.state.isAuthenticated = false ∧
      (verifyToken cfg (.netError m) trR w none).w.state.token = none ∧
      (verifyToken cfg (.netError m) trR w none).w.store cfg.storage.tokenKey = none) := by
  have hrejJ : (getFetch (Transport.jsonOk status body msg : Transport User)).success
      = false ∨ (getFetch (Transport.jsonOk status body msg : Transport User)).data
      = none := by
    left
    simp [getFetch, hstatus]
  have hrejN : (getFetch (Transport.netError m : Transport User)).success = false ∨
      (getFetch (Transport.netError m : Transport User)).data = none := Or.inl rfl
  have hrejP : (getFetch (Transport.parseError p : Transport User)).success = false ∨
      (getFetch (Transport.parseError p : Transport User)).data = none := Or.inl rfl
  have hrejNJ : (getFetch (Transport.nonJson stN : Transport User)).success = false ∨
      (getFetch (Transport.nonJson stN : Transport User)).data = none := Or.inl rfl
  have hcondT : truthyS w.state.refreshToken = true ∧
      truthyS cfg.endpoints.refresh = true := by
    rw [hrt, hroute]; simp [truthyS, hrtne, hroutene]
  have hred := verifyToken_reject_with_refresh cfg (.netError m) trR w ct
    hct hne hcondT hrejN
  refine ⟨verifyToken_failure_congr cfg _ _ trR w none hrejN hrejJ,
    verifyToken_failure_congr cfg _ _ trR w none hrejP hrejJ,
    verifyToken_failure_congr cfg _ _ trR w none hrejNJ hrejJ, ?_, ?_, ?_⟩
  · rw [hred]
    by_cases hok : (refreshAccessToken cfg trR w).ok = true
    · rw [if_pos hok]
      rcases hd : (getFetch trR).data with _ | d
      · rw [refreshAccessToken_failure cfg trR w rt route hrt hrtne hroute
          hroutene (Or.inr hd)] at hok
        cases hok
      · cases hsu : (getFetch trR).success
        · rw [refreshAccessToken_failure cfg trR w rt route hrt hrtne hroute
            hroutene (Or.inl hsu)] at hok
          cases hok
        · obtain ⟨_, _, _, hcalls⟩ := refreshAccessToken_success cfg trR w rt
            route d hrt hrtne hroute hroutene hsu hd
          rw [hcalls]
    · rw [if_neg hok]
      rcases hd : (getFetch trR).data with _ | d
      · rw [refreshAccessToken_failure cfg trR w rt route hrt hrtne hroute
          hroutene (Or.inr hd)]
      · cases hsu : (getFetch trR).success
        · rw [refreshAccessToken_failure cfg trR w rt route hrt hrtne hroute
            hroutene (Or.inl hsu)]
        · obtain ⟨hok2, _, _, _⟩ := refreshAccessToken_success cfg trR w rt
            route d hrt hrtne hroute hroutene hsu hd
          exact absurd hok2 hok
  · intro d hsu hd
    obtain ⟨hok, hauth, htok, _⟩ := refreshAccessToken_success cfg trR w rt
      route d hrt hrtne hroute hroutene hsu hd
    rw [hred, if_pos hok]
    exact ⟨rfl, hauth, htok⟩
  · intro hfail
    have hfl := refreshAccessToken_failure cfg trR w rt route hrt hrtne hroute
      hroutene hfail
    have hnok : (refreshAccessToken cfg trR w).ok = false := by rw [hfl]
    rw [hred, if_neg (by rw [hnok]; exact Bool.false_ne_true)]
    refine ⟨rfl, rfl, rfl, ?_⟩
    rw [logout_store]
    simp

/-- Closed instance of C6: a network error behaves like an HTTP 401
rejection of the verify call. -/
theorem C6_transport_error_witness :
    verifyToken defaultAuthConfig (.netError "down") (.netError "refresh-down")
      ⟨{ token := some "abc", refreshToken := some "r1", user := none
         loading := false, isAuthenticated := true }, emptyStore⟩ none =
    verifyToken defaultAuthConfig (.jsonOk 401 none none) (.netError "refresh-down")
      ⟨{ token := some "abc", refreshToken := some "r1", user := none
         loading := false, isAuthenticated := true }, emptyStore⟩ none :=
  (C6_transport_error_like_rejection defaultAuthConfig
    ⟨{ token := some "abc", refreshToken := some "r1", user := none
       loading := false, isAuthenticated := true }, emptyStore⟩
    "abc" "r1" "/auth/refresh" "down" "parse" 500 401 none none
    (.netError "refresh-down")
    rfl rfl rfl rfl rfl rfl (by decide)).1

/-! ### Claim C3 — login / reload round-trip -/

/-- C3: `login(t, r, u)` followed by a fresh restore-on-start over the store
the login wrote (simulating a reload), with `autoVerify == false`, restores
the credential, renewal credential and principal, marks the session
authenticated and done loading, and issues no network call (the transports
are arbitrary and unused). Keys must be configured and distinct, and the two
tokens non-empty (JS truthiness). -/
theorem C3_login_reload_roundtrip (cfg : AuthConfig) (w : World) (t r : String)
    (u : User) (rk uk : String)
    (hAV : cfg.autoVerify = false)
    (hrk : cfg.storage.refreshTokenKey = some rk)
    (huk : cfg.storage.userKey = some uk)
    (ht : t.isEmpty = false) (hr : r.isEmpty = false)
    (hrt : rk ≠ cfg.storage.tokenKey) (hut : uk ≠ cfg.storage.tokenKey)
    (hur : uk ≠ rk)
    (trV : Transport User) (trR : Transport RefreshData) :
    (initSession cfg trV trR (login cfg w t (some r) (some u)).store).1.state.token
      = some t ∧
    (initSession cfg trV trR (login cfg w t (some r) (some u)).store).1.state.refreshToken
      = some r ∧
    (initSession cfg trV trR (login cfg w t (some r) (some u)).store).1.state.user
      = some u ∧
    (initSession cfg trV trR (login cfg w t (some r) (some u)).store).1.state.isAuthenticated
      = true ∧
    (initSession cfg trV trR (login cfg w t (some r) (some u)).store).1.state.loading
      = false ∧
    (initSession cfg trV trR (login cfg w t (some r) (some u)).store).2 = [] := by
  have hst : (login cfg w t (some r) (some u)).store =
      setItem (setItem (setItem w.store cfg.storage.tokenKey (.str t)) rk (.str r))
        uk (.json u) := by
    simp [login, bangKey, hrk, huk, hr]
  have e1 : getItem (login cfg w t (some r) (some u)).store cfg.storage.tokenKey
      = some (.str t) := by
    rw [hst]
    simp [getItem, setItem, Ne.symm hrt, Ne.symm hut]
  have e2 : getItem (login cfg w t (some r) (some u)).store
      (cfg.storage.refreshTokenKey.getD "") = some (.str r) := by
    rw [hst, hrk]
    simp [getItem, setItem, Ne.symm hur]
  have e3 : getItem (login cfg w t (some r) (some u)).store
      (cfg.storage.userKey.getD "") = some (.json u) := by
    rw [hst, huk]
    simp [getItem, setItem]
  simp only [initSession, e1, e2, e3, hAV]
  simp [StoreVal.truthy, StoreVal.asString, ht, hr, jsonParse]

/-- Closed instance of C3 at the default configuration (with `autoVerify`
off) and concrete tokens. -/
theorem C3_login_reload_witness :
    (initSession { defaultAuthConfig with autoVerify := false }
      (.netError "unused") (.netError "unused")
      (login { defaultAuthConfig with autoVerify := false }
        ⟨initialAuthState, emptyStore⟩ "t0" (some "r0")
        (some { id := "1", email := "a@b.com", name := none })).store).1.state.token
      = some "t0" :=
  (C3_login_reload_roundtrip { defaultAuthConfig with autoVerify := false }
    ⟨initialAuthState, emptyStore⟩ "t0" "r0"
    { id := "1", email := "a@b.com", name := none } "refreshToken" "user"
    rfl rfl rfl rfl rfl (by decide) (by decide) (by decide)
    (.netError "unused") (.netError "unused")).1

/-! ### Claim C2 — loading once the machine settles -/

/-- Every restore-on-start, whatever the store and transport outcomes, ends
with `loading == false`: all paths of the effect reach `setLoading(false)`
(directly, via the verify success path, or via the rejected-verify logout
path, which the first-render closure forces). -/
theorem initSession_loading (cfg : AuthConfig) (trV : Transport User)
    (trR : Transport RefreshData) (store : Store) :
    (initSession cfg trV trR store).1.state.loading = false := by
  simp only [initSession]
  rcases hs : getItem store cfg.storage.tokenKey with _ | tv <;>
    (try split) <;>
    (try split) <;>
    (try split) <;>
    (try split) <;>
    (try split) <;>
    (try split) <;>
    rfl

/-- The `login` operation never touches `loading`. -/
theorem login_loading (cfg : AuthConfig) (w : World) (t : String)
    (r : Option String) (u : Option User) :
    (login cfg w t r u).state.loading = w.state.loading := by
  rcases r with _ | r <;> rcases u with _ | u <;>
    simp only [login] <;> (try split) <;> rfl

/-- The `refreshAccessToken` operation never touches `loading` (its failure
path runs `logout()`, which does not touch it either). -/
theorem refreshAccessToken_loading (cfg : AuthConfig)
    (trR : Transport RefreshData) (w : World) :
    (refreshAccessToken cfg trR w).w.state.loading = w.state.loading := by
  simp only [refreshAccessToken]
  (try split) <;>
    (try split) <;>
    (try split) <;>
    (try split) <;>
    (try split) <;>
    (try split) <;>
    rfl

/-- `verifyToken` keeps `loading` false once it is false: every path either
sets it to false or, on the refresh-recovery return, leaves it untouched. -/
theorem verifyToken_loading (cfg : AuthConfig) (trV : Transport User)
    (trR : Transport RefreshData) (w : World) (arg : Option String)
    (hw : w.state.loading = false) :
    (verifyToken cfg trV trR w arg).w.state.loading = false := by
  simp only [verifyToken]
  (try split) <;>
    (try split) <;>
    (try split) <;>
    (try split) <;>
    (try split) <;>
    first
      | rfl
      | (rw [refreshAccessToken_loading]; exact hw)

/-- C2 counterexample: at the very input the claim describes — stored token
and stored renewal credential, `autoVerify` on, verify rejected with HTTP
401, refresh endpoint answering 200 with a fresh token — the restore chain is
NOT recovered by a refresh: the first-render closure has a null renewal
credential, so the machine settles fully logged out, with `authenticated ==
false`, the credential cleared and `loading == false`, and the only network
call issued is the verify one (the refresh endpoint is never contacted).
This refutes the claimed settling with `authenticated == true`. -/
theorem C2_restore_never_refreshes_counterexample :
    (initSession defaultAuthConfig (.jsonOk 401 none (some "unauthorized"))
      (.jsonOk 200 (some { token := "t2", refreshToken := none, user := none }) none)
      (setItem (setItem emptyStore "authToken" (.str "abc")) "refreshToken"
        (.str "r1"))).1.state.isAuthenticated = false ∧
    (initSession defaultAuthConfig (.jsonOk 401 none (some "unauthorized"))
      (.jsonOk 200 (some { token := "t2", refreshToken := none, user := none }) none)
      (setItem (setItem emptyStore "authToken" (.str "abc")) "refreshToken"
        (.str "r1"))).1.state.token = none ∧
    (initSession defaultAuthConfig (.jsonOk 401 none (some "unauthorized"))
      (.jsonOk 200 (some { token := "t2", refreshToken := none, user := none }) none)
      (setItem (setItem emptyStore "authToken" (.str "abc")) "refreshToken"
        (.str "r1"))).1.state.loading = false ∧
    (initSession defaultAuthConfig (.jsonOk 401 none (some "unauthorized"))
      (.jsonOk 200 (some { token := "t2", refreshToken := none, user := none }) none)
      (setItem (setItem emptyStore "authToken" (.str "abc")) "refreshToken"
        (.str "r1"))).2 = [{ route := "/auth/me", bearer := "abc" }] := by
  refine ⟨?_, ?_, ?_, ?_⟩ <;> decide

/-- C2 (amended): `loading` is true only during the restore-on-start phase —
every restore settles with `loading == false`, and every surface operation
keeps `loading` false once it is false (neither `verifyToken` nor the
refresh fallback ever sets it back to true).  The particular scenario the
claim singles out cannot occur: the restore chain runs in the first-render
closure whose renewal credential is null, so an `initialize()` whose
`autoVerify` verify is rejected is never recovered by a refresh — it settles
logged out (`authenticated == false`, credential cleared), still with
`loading == false`, issuing only the verify network call. -/
theorem C2_loading_false_once_settled (cfg : AuthConfig) (trV : Transport User)
    (trR : Transport RefreshData) (store : Store) (w : World) (t : String)
    (r : Option String) (u : Option User) (uu : User) (arg : Option String)
    (hw : w.state.loading = false) :
    (initSession cfg trV trR store).1.state.loading = false ∧
    (login cfg w t r u).state.loading = false ∧
    (logout cfg w).state.loading = false ∧
    (updateUser cfg w uu).state.loading = false ∧
    (refreshAccessToken cfg trR w).w.state.loading = false ∧
    (verifyToken cfg trV trR w arg).w.state.loading = false ∧
    (cfg.autoVerify = true →
      ∀ tv, getItem store cfg.storage.tokenKey = some tv → tv.truthy = true →
      ((getFetch trV).success = false ∨ (getFetch trV).data = none) →
      (initSession cfg trV trR store).1.state.isAuthenticated = false ∧
      (initSession cfg trV trR store).1.state.token = none ∧
      (initSession cfg trV trR store).2 = [⟨cfg.endpoints.verify, tv.asString⟩]) := by
  refine ⟨initSession_loading cfg trV trR store, ?_, ?_, ?_, ?_, ?_, ?_⟩
  · rw [login_loading]
    exact hw
  · exact hw
  · exact hw
  · rw [refreshAccessToken_loading]
    exact hw
  · exact verifyToken_loading cfg trV trR w arg hw
  · intro hAV tv hsv htr hrej
    cases hsu : (getFetch trV).success <;> cases hd : (getFetch trV).data <;>
      simp only [hsu, hd, Option.some_ne_none, or_false, false_or,
        Bool.true_eq_false, Bool.false_eq_true] at hrej <;>
      refine ⟨?_, ?_, ?_⟩ <;>
        simp [initSession, hsv, htr, hAV, hsu, hd, logout]

/-- Closed instance of the amended C2 statement: a settled-state
`verifyToken` that is rejected leaves `loading` false. -/
theorem C2_loading_false_witness :
    (verifyToken defaultAuthConfig (.jsonOk 401 none none) (.netError "x")
      ⟨{ token := some "abc", refreshToken := none, user := none
         loading := false, isAuthenticated := true }, emptyStore⟩
      none).w.state.loading = false :=
  (C2_loading_false_once_settled defaultAuthConfig (.jsonOk 401 none none)
    (.netError "x") emptyStore
    ⟨{ token := some "abc", refreshToken := none, user := none
       loading := false, isAuthenticated := true }, emptyStore⟩
    "t" none none { id := "1", email := "a@b.com", name := none } none
    rfl).2.2.2.2.2.1


/-- The invariant of claim C1: an authenticated state holds a credential. -/
def authInv (s : AuthState) : Prop := s.isAuthenticated = true → s.token ≠ none

theorem authInv_login (cfg : AuthConfig) (w : World) (t : String)
    (r : Option String) (u : Option User) : authInv (login cfg w t r u).state := by
  intro _
  rcases r with _ | r <;> rcases u with _ | u <;>
    simp only [login] <;> (try split) <;> simp

theorem authInv_logout (cfg : AuthConfig) (w : World) :
    authInv (logout cfg w).state := by
  intro h
  simp [logout] at h

theorem authInv_updateUser (cfg : AuthConfig) (w : World) (u : User)
    (hinv : authInv w.state) : authInv (updateUser cfg w u).state :=
  fun h => hinv h

theorem authInv_refreshAccessToken (cfg : AuthConfig) (trR : Transport RefreshData)
    (w : World) (hinv : authInv w.state) :
    authInv (refreshAccessToken cfg trR w).w.state := by
  rcases hrt : w.state.refreshToken with _ | rt
  · rw [refreshAccessToken_skip cfg trR w (Or.inl (by simp [truthyS, hrt]))]
    exact hinv
  rcases hrr : cfg.endpoints.refresh with _ | route
  · rw [refreshAccessToken_skip cfg trR w (Or.inr (by simp [truthyS, hrr]))]
    exact hinv
  by_cases h1 : rt.isEmpty = true
  · rw [refreshAccessToken_skip cfg trR w (Or.inl (by simp [truthyS, hrt, h1]))]
    exact hinv
  by_cases h2 : route.isEmpty = true
  · rw [refreshAccessToken_skip cfg trR w (Or.inr (by simp [truthyS, hrr, h2]))]
    exact hinv
  rw [Bool.not_eq_true] at h1 h2
  cases hsu : (getFetch trR).success
  · rw [refreshAccessToken_failure cfg trR w rt route hrt h1 hrr h2 (Or.inl hsu)]
    exact authInv_logout cfg w
  · rcases hd : (getFetch trR).data with _ | d
    · rw [refreshAccessToken_failure cfg trR w rt route hrt h1 hrr h2 (Or.inr hd)]
      exact authInv_logout cfg w
    · obtain ⟨_, _, htok, _⟩ :=
        refreshAccessToken_success cfg trR w rt route d hrt h1 hrr h2 hsu hd
      intro _
      rw [htok]
      simp

theorem authInv_verifyToken (cfg : AuthConfig) (trV : Transport User)
    (trR : Transport RefreshData) (w : World) (arg : Option String)
    (hinv : authInv w.state)
    (hside : w.state.token ≠ none ∨ truthyS arg = false) :
    authInv (verifyToken cfg trV trR w arg).w.state := by
  have htokne : ∀ h2 : w.state.isAuthenticated = true, w.state.token ≠ none := fun h2 => hinv h2
  simp only [verifyToken]
  rcases hc : (if truthyS arg = true then arg else w.state.token) with _ | ct
  · intro h
    by_cases harg : truthyS arg = true
    · rw [if_pos harg] at hc
      subst hc
      simp [truthyS] at harg
    · rw [if_neg harg] at hc
      exact absurd hc (hinv h)
  · have htok : w.state.token ≠ none ∨ w.state.token = some ct := by
      by_cases harg : truthyS arg = true
      · rcases hside with hs | hs
        · exact Or.inl hs
        · rw [hs] at harg; cases harg
      · rw [if_neg harg] at hc
        exact Or.inr hc
    by_cases hemp : ct.isEmpty = true
    · simp only [hemp, if_true]
      intro h
      rcases htok with hp | hp
      · exact hp
      · rw [hp]; simp
    · rw [Bool.not_eq_true] at hemp
      simp only [hemp, Bool.false_eq_true, if_false]
      cases hsu : (getFetch trV).success <;> rcases hd : (getFetch trV).data with _ | uu <;>
        simp only [hsu, hd] <;>
        first
          | (intro _
             show w.state.token ≠ none
             rcases htok with hp | hp
             · exact hp
             · rw [hp]
               simp)
          | (by_cases hcond : truthyS w.state.refreshToken = true ∧
                truthyS cfg.endpoints.refresh = true
             · rw [if_pos hcond]
               by_cases hok : (refreshAccessToken cfg trR w).ok = true
               · simp only [hok, if_true]
                 exact authInv_refreshAccessToken cfg trR w hinv
               · rw [Bool.not_eq_true] at hok
                 simp only [hok, Bool.false_eq_true, if_false]
                 intro h
                 simp [logout] at h
             · rw [if_neg hcond]
               intro h
               simp [logout] at h)


theorem authInv_initSession (cfg : AuthConfig) (trV : Transport User)
    (trR : Transport RefreshData) (store : Store) :
    authInv (initSession cfg trV trR store).1.state := by
  simp only [initSession]
  rcases hs : getItem store cfg.storage.tokenKey with _ | tv
  · intro h
    simp [initialAuthState] at h
  by_cases htr : tv.truthy = true
  swap
  · rw [Bool.not_eq_true] at htr
    simp only [htr, Bool.false_eq_true, if_false]
    intro h
    simp [initialAuthState] at h
  simp only [htr, if_true]
  rcases hr2 : getItem store (cfg.storage.refreshTokenKey.getD "") with _ | rv <;>
    rcases hu2 : getItem store (cfg.storage.userKey.getD "") with _ | uv <;>
    simp only [hr2, hu2] <;>
    (try split) <;>
    (try split) <;>
    (try split) <;>
    (try split) <;>
    (try split) <;>
    first
      | (intro _; simp [initialAuthState]; done)
      | (intro h; simp [logout] at h)

/-- Reachable worlds of one session: a mount-time restore from an arbitrary
store, followed by any sequence of surface operations; `verifyToken` steps
carry the amendment side condition — an explicit truthy credential argument
is only passed while an in-memory credential exists. -/
inductive Reach (cfg : AuthConfig) : World → Prop where
  | boot (trV : Transport User) (trR : Transport RefreshData) (store : Store) :
      Reach cfg (initSession cfg trV trR store).1
  | doLogin (w : World) (t : String) (r : Option String) (u : Option User) :
      Reach cfg w → Reach cfg (login cfg w t r u)
  | doLogout (w : World) : Reach cfg w → Reach cfg (logout cfg w)
  | doUpdate (w : World) (u : User) : Reach cfg w → Reach cfg (updateUser cfg w u)
  | doRefresh (w : World) (trR : Transport RefreshData) :
      Reach cfg w → Reach cfg (refreshAccessToken cfg trR w).w
  | doVerify (w : World) (trV : Transport User) (trR : Transport RefreshData)
      (arg : Option String) : Reach cfg w →
      w.state.token ≠ none ∨ truthyS arg = false →
      Reach cfg (verifyToken cfg trV trR w arg).w

/-- C1 (amended): `authenticated == true` implies `credential != null` in
every state reachable through the session surface, PROVIDED `verifyToken` is
only called with an explicit truthy credential while an in-memory credential
exists (or with no/falsy explicit credential); without that proviso the
invariant fails (see the counterexample). -/
theorem C1_authenticated_implies_credential (cfg : AuthConfig) (w : World)
    (hw : Reach cfg w) : authInv w.state := by
  induction hw with
  | boot trV trR store => exact authInv_initSession cfg trV trR store
  | doLogin w t r u _ _ => exact authInv_login cfg w t r u
  | doLogout w _ _ => exact authInv_logout cfg w
  | doUpdate w u _ ih => exact authInv_updateUser cfg w u ih
  | doRefresh w trR _ ih => exact authInv_refreshAccessToken cfg trR w ih
  | doVerify w trV trR arg _ hside ih =>
      exact authInv_verifyToken cfg trV trR w arg ih hside

/-- Closed instance of C1: the invariant holds after booting from an empty
store and logging in. -/
theorem C1_invariant_witness :
    authInv (login defaultAuthConfig
      (initSession defaultAuthConfig (.netError "x") (.netError "x") emptyStore).1
      "t" none none).state :=
  C1_authenticated_implies_credential defaultAuthConfig _
    (Reach.doLogin _ "t" none none
      (Reach.boot (.netError "x") (.netError "x") emptyStore))

/-- C1 counterexample: from the state the machine boots into over an empty
store (no credential in memory), a successful `verifyToken("abc")` with an
explicit credential leaves `authenticated == true` while `credential ==
null` — the success path never writes the verified token into state — so the
claim that this call leaves the invariant intact is false. -/
theorem C1_explicit_verify_counterexample :
    (verifyToken defaultAuthConfig
      (.jsonOk 200 (some { id := "1", email := "a@b.com", name := none }) none)
      (.netError "x")
      (initSession defaultAuthConfig (.netError "x") (.netError "x") emptyStore).1
      (some "abc")).w.state.isAuthenticated = true ∧
    (verifyToken defaultAuthConfig
      (.jsonOk 200 (some { id := "1", email := "a@b.com", name := none }) none)
      (.netError "x")
      (initSession defaultAuthConfig (.netError "x") (.netError "x") emptyStore).1
      (some "abc")).w.state.token = none ∧
    ¬ authInv (verifyToken defaultAuthConfig
      (.jsonOk 200 (some { id := "1", email := "a@b.com", name := none }) none)
      (.netError "x")
      (initSession defaultAuthConfig (.netError "x") (.netError "x") emptyStore).1
      (some "abc")).w.state := by
  refine ⟨by decide, by decide, ?_⟩
  intro hcontra
  exact hcontra (by decide) (by decide)

end AuthCore
